import Mathlib

/-!
Verification of the icon-generation script `scripts/generate_icons.py`.

The script draws app icons with the PIL imaging library and writes them to
Android and iOS asset directories.  The imaging library and the filesystem
are external collaborators, so their calls are modelled symbolically:

* `PImage` records the sequence of library calls that build a bitmap
  (canvas creation, in-place drawing, copy, Gaussian blur, alpha
  compositing); `dims` gives the pixel dimensions each call produces,
  following the documented behaviour of the library.
* `FsEvent` records the filesystem and console effects of the generator
  (directory creation, file writes, printed lines).

Numeric coordinates are modelled with exact rationals; Python `int(...)`
truncation toward zero is `pyint`.
-/

/-- Value of one hexadecimal digit, as read by Python `int(s, 16)`. -/
def hexVal (c : Char) : ℕ :=
  if '0' ≤ c ∧ c ≤ '9' then c.toNat - '0'.toNat
  else if 'a' ≤ c ∧ c ≤ 'f' then c.toNat - 'a'.toNat + 10
  else if 'A' ≤ c ∧ c ≤ 'F' then c.toNat - 'A'.toNat + 10
  else 0

/-- `hex_to_rgb` from the script: strip leading `#`, then read the three
two-digit hexadecimal groups at offsets 0, 2, 4. -/
def hex_to_rgb (s : String) : ℤ × ℤ × ℤ :=
  let t := s.toList.dropWhile (fun c => c = '#')
  let d := fun (i : ℕ) => hexVal (t.getD i '0')
  (((16 * d 0 + d 1 : ℕ) : ℤ), ((16 * d 2 + d 3 : ℕ) : ℤ), ((16 * d 4 + d 5 : ℕ) : ℤ))

/-- Python `int(x)` on a real value: truncation toward zero. -/
def pyint (q : ℚ) : ℤ :=
  if 0 ≤ q then q.floor else q.ceil

/-- The `COLORS` palette dictionary of the script. -/
def COLORS (k : String) : String :=
  if k = "background" then "#0B0B1F"
  else if k = "gradient" then "#1A0B2E"
  else if k = "primary_neon" then "#00FFFF"
  else if k = "secondary_neon" then "#FF1493"
  else if k = "accent_neon" then "#39FF14"
  else ""

/-- `blend_colors` from the script: convert both hex colors to RGB and
linearly interpolate each channel, truncating to integer. -/
def blend_colors (color1 color2 : String) (ratio : ℚ) : ℤ × ℤ × ℤ :=
  let rgb1 := hex_to_rgb color1
  let rgb2 := hex_to_rgb color2
  (pyint ((rgb1.1 : ℚ) * (1 - ratio) + (rgb2.1 : ℚ) * ratio),
   pyint ((rgb1.2.1 : ℚ) * (1 - ratio) + (rgb2.2.1 : ℚ) * ratio),
   pyint ((rgb1.2.2 : ℚ) * (1 - ratio) + (rgb2.2.2 : ℚ) * ratio))

/-- An RGBA pixel value. -/
abbrev RGBA : Type := ℤ × ℤ × ℤ × ℤ

/-- PIL promotes an RGB triple given to an RGBA canvas to full (255) alpha. -/
def rgbaOfRgb (c : ℤ × ℤ × ℤ) : RGBA := (c.1, c.2.1, c.2.2, 255)

/-- One in-place drawing call on an `ImageDraw` object. -/
inductive DrawOp where
  | line (x0 y0 x1 y1 : ℚ) (fill : ℤ × ℤ × ℤ)
  | ellipse (x0 y0 x1 y1 : ℚ) (fill : ℤ × ℤ × ℤ)
  | polygon (pts : List (ℚ × ℚ)) (fill : ℤ × ℤ × ℤ)
deriving DecidableEq

/-- A bitmap, recorded as the sequence of imaging-library calls that
produced it. -/
inductive PImage where
  | new (w h : ℕ) (color : RGBA)
  | draw (op : DrawOp) (i : PImage)
  | copy (i : PImage)
  | gaussianBlur (radius : ℚ) (i : PImage)
  | alpha_composite (dst src : PImage)
deriving DecidableEq

/-- Pixel dimensions of a bitmap, per the documented behaviour of each
library call: `new` takes the given size, drawing is in place, `copy` and
blur preserve size, and `alpha_composite` returns an image of the size of
its (equally sized) arguments. -/
def dims : PImage → ℕ × ℕ
  | .new w h _ => (w, h)
  | .draw _ i => dims i
  | .copy i => dims i
  | .gaussianBlur _ i => dims i
  | .alpha_composite d _ => dims d

/-- Number of drawing calls recorded in a bitmap. -/
def drawCount : PImage → ℕ
  | .new _ _ _ => 0
  | .draw _ i => drawCount i + 1
  | .copy i => drawCount i
  | .gaussianBlur _ i => drawCount i
  | .alpha_composite d s => drawCount d + drawCount s

/-- `apply_glow_effect` from the script: copy the image, blur the copy with
Gaussian radius 3, then composite onto a fresh transparent canvas of the
same size the blurred copy first and the original on top. -/
def apply_glow_effect (img : PImage) : PImage :=
  let glow := PImage.copy img
  let glow := PImage.gaussianBlur 3 glow
  let result := PImage.new (dims img).1 (dims img).2 ((0, 0, 0, 0) : RGBA)
  let result := PImage.alpha_composite result glow
  PImage.alpha_composite result img

/-- One observable effect of the generator: a recursive `os.makedirs`
call (with `exist_ok=True`), a file write (`save`), or a printed line. -/
inductive FsEvent where
  | makedirs (path : String)
  | save (path : String) (img : PImage)
  | pr (s : String)
deriving DecidableEq

/-- `center_x` of the script: `size // 2`. -/
def center_x (size : ℕ) : ℚ := ((size / 2 : ℕ) : ℚ)

/-- `center_y` of the script: `size // 2`. -/
def center_y (size : ℕ) : ℚ := ((size / 2 : ℕ) : ℚ)

/-- `bird_size = size * 0.6`. -/
def bird_size (size : ℕ) : ℚ := (size : ℚ) * 0.6

/-- `body_left = center_x - bird_size * 0.3`. -/
def body_left (size : ℕ) : ℚ := center_x size - bird_size size * 0.3

/-- `body_top = center_y - bird_size * 0.2`. -/
def body_top (size : ℕ) : ℚ := center_y size - bird_size size * 0.2

/-- `body_right = center_x + bird_size * 0.2`. -/
def body_right (size : ℕ) : ℚ := center_x size + bird_size size * 0.2

/-- `body_bottom = center_y + bird_size * 0.2`. -/
def body_bottom (size : ℕ) : ℚ := center_y size + bird_size size * 0.2

/-- The three `beak_points` of the script. -/
def beak_points (size : ℕ) : List (ℚ × ℚ) :=
  [(body_right size, center_y size - bird_size size * 0.05),
   (body_right size + bird_size size * 0.15, center_y size),
   (body_right size, center_y size + bird_size size * 0.05)]

/-- The four `tail_points` of the script. -/
def tail_points (size : ℕ) : List (ℚ × ℚ) :=
  [(body_left size, center_y size - bird_size size * 0.1),
   (body_left size - bird_size size * 0.2, center_y size - bird_size size * 0.15),
   (body_left size - bird_size size * 0.15, center_y size + bird_size size * 0.05),
   (body_left size, center_y size + bird_size size * 0.1)]

/-- The background-gradient loop of `create_neon_bird_icon`: for each row
`y`, draw a full-width line of the blended background color. -/
def background_gradient (size : ℕ) (img : PImage) : PImage :=
  (List.range size).foldl
    (fun (im : PImage) (y : ℕ) =>
      PImage.draw
        (DrawOp.line 0 (y : ℚ) (size : ℚ) (y : ℚ)
          (blend_colors (COLORS "background") (COLORS "gradient") ((y : ℚ) / (size : ℚ))))
        im)
    img

/-- The particle-trail loop of `create_neon_bird_icon`: five candidate dots,
each drawn only when its `x` coordinate is positive. -/
def particle_trail (size : ℕ) (img : PImage) : PImage :=
  (List.range 5).foldl
    (fun (im : PImage) (i : ℕ) =>
      let particle_x := body_left size - bird_size size * 0.3 - (i : ℚ) * (size : ℚ) * 0.05
      let particle_y := center_y size + (((i % 2 : ℕ) : ℚ) - 0.5) * (size : ℚ) * 0.1
      let particle_size := max 2 ((size : ℚ) * 0.02 - (i : ℚ))
      if particle_x > 0 then
        PImage.draw
          (DrawOp.ellipse (particle_x - particle_size) (particle_y - particle_size)
            (particle_x + particle_size) (particle_y + particle_size)
            (hex_to_rgb (COLORS "primary_neon")))
          im
      else im)
    img

/-- `create_neon_bird_icon` from the script: transparent canvas, gradient
background, bird body ellipse, beak and tail polygons, particle trail, then
the glow effect. -/
def create_neon_bird_icon (size : ℕ) : PImage :=
  let img0 := PImage.new size size ((0, 0, 0, 0) : RGBA)
  let img1 := background_gradient size img0
  let img2 := PImage.draw
    (DrawOp.ellipse (body_left size) (body_top size) (body_right size) (body_bottom size)
      (hex_to_rgb (COLORS "primary_neon"))) img1
  let img3 := PImage.draw
    (DrawOp.polygon (beak_points size) (hex_to_rgb (COLORS "secondary_neon"))) img2
  let img4 := PImage.draw
    (DrawOp.polygon (tail_points size) (hex_to_rgb (COLORS "accent_neon"))) img3
  let img5 := particle_trail size img4
  apply_glow_effect img5

/-- The `android_sizes` dictionary, in insertion (iteration) order. -/
def android_sizes : List (String × ℕ) :=
  [("mdpi", 48), ("hdpi", 72), ("xhdpi", 96), ("xxhdpi", 144), ("xxxhdpi", 192)]

/-- The Android `base_path` of the script. -/
def android_base_path : String := "../android/app/src/main/res"

/-- One iteration of the `generate_android_icons` loop: create the density
directory, write `ic_launcher.png`, the flat background, and the re-rendered
foreground, then print a progress line.  PIL promotes the RGB background
triple to alpha 255 on the RGBA canvas (`rgbaOfRgb`). -/
def android_density_events (density : String) (size : ℕ) : List FsEvent :=
  let dir_path := android_base_path ++ "/mipmap-" ++ density
  [FsEvent.makedirs dir_path,
   FsEvent.save (dir_path ++ "/ic_launcher.png") (create_neon_bird_icon size),
   FsEvent.save (dir_path ++ "/ic_launcher_background.png")
     (PImage.new size size (rgbaOfRgb (hex_to_rgb (COLORS "background")))),
   FsEvent.save (dir_path ++ "/ic_launcher_foreground.png") (create_neon_bird_icon size),
   FsEvent.pr ("Generated Android " ++ density ++ " icons (" ++ toString size ++ "x"
     ++ toString size ++ ")")]

/-- `generate_android_icons` from the script, as its event trace. -/
def generate_android_icons : List FsEvent :=
  android_sizes.foldl (fun acc p => acc ++ android_density_events p.1 p.2) []

/-- The `ios_sizes` dictionary, in insertion (iteration) order. -/
def ios_sizes : List (String × ℕ) :=
  [("Icon-App-20x20@1x.png", 20),
   ("Icon-App-20x20@2x.png", 40),
   ("Icon-App-20x20@3x.png", 60),
   ("Icon-App-29x29@1x.png", 29),
   ("Icon-App-29x29@2x.png", 58),
   ("Icon-App-29x29@3x.png", 87),
   ("Icon-App-40x40@1x.png", 40),
   ("Icon-App-40x40@2x.png", 80),
   ("Icon-App-40x40@3x.png", 120),
   ("Icon-App-60x60@2x.png", 120),
   ("Icon-App-60x60@3x.png", 180),
   ("Icon-App-76x76@1x.png", 76),
   ("Icon-App-76x76@2x.png", 152),
   ("Icon-App-83.5x83.5@2x.png", 167),
   ("Icon-App-1024x1024@1x.png", 1024)]

/-- The iOS `base_path` of the script. -/
def ios_base_path : String := "../ios/Runner/Assets.xcassets/AppIcon.appiconset"

/-- `generate_ios_icons` from the script, as its event trace: one save and
one progress line per (filename, size) pair, no directory creation. -/
def generate_ios_icons : List FsEvent :=
  ios_sizes.foldl
    (fun acc p =>
      acc ++ [FsEvent.save (ios_base_path ++ "/" ++ p.1) (create_neon_bird_icon p.2),
              FsEvent.pr ("Generated iOS icon " ++ p.1 ++ " (" ++ toString p.2 ++ "x"
                ++ toString p.2 ++ ")")])
    []

/-- The two header lines printed by `main` before the `try` block. -/
def header_events : List FsEvent :=
  [FsEvent.pr "Generating Neon Pulse Flappy Bird App Icons...",
   FsEvent.pr (String.mk (List.replicate 50 '='))]

/-- The two lines printed by the `except` handler of `main`, for an
exception rendered as the string `e`. -/
def error_events (e : String) : List FsEvent :=
  [FsEvent.pr ("❌ Error generating icons: " ++ e),
   FsEvent.pr "Make sure you have Pillow installed: pip install Pillow"]

/-- The closing lines of the `try` block of `main`. -/
def success_events : List FsEvent :=
  [FsEvent.pr "",
   FsEvent.pr "✅ All icons generated successfully!",
   FsEvent.pr "Note: Make sure to update AndroidManifest.xml and Info.plist with proper app names."]

/-- The observable outcome of one phase of generation: the events it
performed, and the exception it raised, if any. -/
structure PhaseRun where
  events : List FsEvent
  exn : Option String

/-- `main` from the script, over the outcomes of its two generation phases:
print the header, run Android then iOS generation inside one `try`, and on
any exception from either phase print the handler lines and return
normally.  The `Bool` records whether an exception escapes `main`. -/
def mainWith (a b : PhaseRun) : List FsEvent × Bool :=
  match a.exn with
  | some e => (header_events ++ a.events ++ error_events e, false)
  | none =>
    match b.exn with
    | some e => (header_events ++ a.events ++ [FsEvent.pr ""] ++ b.events
        ++ error_events e, false)
    | none => (header_events ++ a.events ++ [FsEvent.pr ""] ++ b.events
        ++ success_events, false)

/-- The trace of a successful run of `main`. -/
def main_events : List FsEvent :=
  (mainWith ⟨generate_android_icons, none⟩ ⟨generate_ios_icons, none⟩).1

/-- A run of `main` in an ambient environment `world`.  The script reads no
input, clock, randomness, or other ambient state, so the events of a run do
not depend on it. -/
def run_main (_world : ℕ) : List FsEvent × Bool :=
  mainWith ⟨generate_android_icons, none⟩ ⟨generate_ios_icons, none⟩

/-- File contents after replaying a trace against an initial filesystem:
each `save` overwrites the file at its path. -/
def apply_event (fs : String → Option PImage) (e : FsEvent) : String → Option PImage :=
  match e with
  | .save p img => fun q => if q = p then some img else fs q
  | _ => fs

/-- Replay a whole trace against an initial filesystem. -/
def apply_events (fs : String → Option PImage) (t : List FsEvent) : String → Option PImage :=
  t.foldl apply_event fs

/-- The last image saved at path `q` by a trace, if any. -/
def last_save : List FsEvent → String → Option PImage
  | [], _ => none
  | e :: t, q =>
    match last_save t q with
    | some i => some i
    | none =>
      match e with
      | .save p img => if q = p then some img else none
      | _ => none

/-- Paths of the files written by a trace, in order. -/
def savedPaths (t : List FsEvent) : List String :=
  t.filterMap fun e =>
    match e with
    | .save p _ => some p
    | _ => none

/-- Dimensions of the images written by a trace, in order. -/
def savedDims (t : List FsEvent) : List (ℕ × ℕ) :=
  t.filterMap fun e =>
    match e with
    | .save _ i => some (dims i)
    | _ => none

/-- Paths of the directories created by a trace, in order. -/
def madeDirs (t : List FsEvent) : List String :=
  t.filterMap fun e =>
    match e with
    | .makedirs p => some p
    | _ => none

/-- The first image a trace saves at path `p`, if any. -/
def savedAt (t : List FsEvent) (p : String) : Option PImage :=
  t.findSome? fun e =>
    match e with
    | .save q i => if q = p then some i else none
    | _ => none

/-! ### Helper lemmas -/

lemma dims_foldl {α : Type} (f : PImage → α → PImage)
    (h : ∀ im a, dims (f im a) = dims im) :
    ∀ (l : List α) (im : PImage), dims (l.foldl f im) = dims im := by
  intro l
  induction l with
  | nil => intro im; rfl
  | cons a t ih => intro im; rw [List.foldl_cons, ih, h]

lemma dims_background_gradient (size : ℕ) (img : PImage) :
    dims (background_gradient size img) = dims img := by
  unfold background_gradient
  apply dims_foldl
  intro im y
  rfl

lemma dims_particle_trail (size : ℕ) (img : PImage) :
    dims (particle_trail size img) = dims img := by
  unfold particle_trail
  apply dims_foldl
  intro im i
  dsimp only
  split <;> rfl

lemma dims_apply_glow (img : PImage) : dims (apply_glow_effect img) = dims img := by
  simp [apply_glow_effect, dims]

lemma dims_create (size : ℕ) : dims (create_neon_bird_icon size) = (size, size) := by
  simp [create_neon_bird_icon, dims_apply_glow, dims_particle_trail, dims,
    dims_background_gradient]

lemma pyint_intCast (n : ℤ) : pyint ((n : ℚ)) = n := by
  unfold pyint
  split <;> simp [Rat.floor, Rat.ceil]

/-! ### Claim theorems -/

/-- C1: for every positive `size`, `create_neon_bird_icon size` is a bitmap
of exactly `size × size` pixels, and the glow-compositing step preserves
the dimensions of its input. -/
theorem create_icon_dims (size : ℕ) (_pos : 0 < size) :
    dims (create_neon_bird_icon size) = (size, size) ∧
    ∀ img : PImage, dims (apply_glow_effect img) = dims img :=
  ⟨dims_create size, dims_apply_glow⟩

/-- Witness for C1 at `size = 48`. -/
theorem create_icon_dims_witness :
    dims (create_neon_bird_icon 48) = (48, 48) ∧
    ∀ img : PImage, dims (apply_glow_effect img) = dims img :=
  create_icon_dims 48 (by decide)

/-- C2: `blend_colors` linearly interpolates each RGB channel independently
with truncation to integer; at ratio 0 it returns the first color exactly,
at ratio 1 the second, and at ratio 0.5 it maps black and (200,200,200)
to (100,100,100). -/
theorem blend_colors_spec (c1 c2 : String) (r : ℚ) :
    blend_colors c1 c2 r =
      (pyint (((hex_to_rgb c1).1 : ℚ) * (1 - r) + ((hex_to_rgb c2).1 : ℚ) * r),
       pyint (((hex_to_rgb c1).2.1 : ℚ) * (1 - r) + ((hex_to_rgb c2).2.1 : ℚ) * r),
       pyint (((hex_to_rgb c1).2.2 : ℚ) * (1 - r) + ((hex_to_rgb c2).2.2 : ℚ) * r)) ∧
    blend_colors c1 c2 0 = hex_to_rgb c1 ∧
    blend_colors c1 c2 1 = hex_to_rgb c2 ∧
    blend_colors "#000000" "#C8C8C8" 0.5 = (100, 100, 100) := by
  refine ⟨rfl, ?_, ?_, ?_⟩
  · show (pyint _, pyint _, pyint _) = _
    norm_num [pyint_intCast]
  · show (pyint _, pyint _, pyint _) = _
    norm_num [pyint_intCast]
  · have h0 : hex_to_rgb "#000000" = (0, 0, 0) := by decide
    have h200 : hex_to_rgb "#C8C8C8" = (200, 200, 200) := by decide
    show (pyint _, pyint _, pyint _) = _
    rw [h0, h200]
    have : ((0 : ℤ) : ℚ) * (1 - 0.5) + ((200 : ℤ) : ℚ) * 0.5 = ((100 : ℤ) : ℚ) := by
      norm_num
    simp only [this, pyint_intCast]

/-- C3: the glow effect duplicates the canvas, Gaussian-blurs the duplicate
with fixed radius 3, and composites onto a fresh fully transparent canvas of
the same size the blurred copy first and the sharp original on top; its
result keeps the dimensions of the input. -/
theorem apply_glow_structure (img : PImage) :
    apply_glow_effect img =
      PImage.alpha_composite
        (PImage.alpha_composite
          (PImage.new (dims img).1 (dims img).2 ((0, 0, 0, 0) : RGBA))
          (PImage.gaussianBlur 3 (PImage.copy img)))
        img ∧
    dims (apply_glow_effect img) = dims img :=
  ⟨rfl, dims_apply_glow img⟩

/-- The particle dots as the claim describes them: for `i` in `[0,5)`, a
filled primary-neon circle of radius `max 2 (0.02*size - i)` centred at
`x = bodyLeft - 0.3*birdSize - i*0.05*size`,
`y = center + (i % 2 - 0.5)*0.1*size`, skipped exactly when `x ≤ 0`. -/
def particle_dots_claimed (size : ℕ) : List DrawOp :=
  (List.range 5).filterMap fun (i : ℕ) =>
    let x := body_left size - 0.3 * bird_size size - (i : ℚ) * 0.05 * (size : ℚ)
    let y := center_y size + (((i % 2 : ℕ) : ℚ) - 0.5) * 0.1 * (size : ℚ)
    let r := max 2 (0.02 * (size : ℚ) - (i : ℚ))
    if x ≤ 0 then none
    else some (DrawOp.ellipse (x - r) (y - r) (x + r) (y + r)
      (hex_to_rgb (COLORS "primary_neon")))

lemma foldl_eq_filterMap_draw {α : Type} (f : PImage → α → PImage)
    (g : α → Option DrawOp)
    (h : ∀ im a, f im a = match g a with
      | some op => PImage.draw op im
      | none => im) :
    ∀ (l : List α) (img : PImage),
      l.foldl f img = (l.filterMap g).foldl (fun im op => PImage.draw op im) img := by
  intro l
  induction l with
  | nil => intro img; rfl
  | cons a t ih =>
    intro img
    rw [List.foldl_cons, h, List.filterMap_cons]
    cases hg : g a with
    | none => simp only [hg, ih]
    | some op => simp only [hg, ih, List.foldl_cons]

/-- C4: the particle-trail step draws exactly the dots the claim lists, in
order, and skips a dot exactly when its `x` coordinate is `≤ 0`. -/
theorem particle_trail_draws_claimed_dots (size : ℕ) (img : PImage) :
    particle_trail size img
      = (particle_dots_claimed size).foldl (fun im op => PImage.draw op im) img := by
  unfold particle_trail particle_dots_claimed
  apply foldl_eq_filterMap_draw
  intro im i
  dsimp only
  have hx : body_left size - bird_size size * 0.3 - (i : ℚ) * (size : ℚ) * 0.05
      = body_left size - 0.3 * bird_size size - (i : ℚ) * 0.05 * (size : ℚ) := by
    ring
  have hy : center_y size + (((i % 2 : ℕ) : ℚ) - 0.5) * (size : ℚ) * 0.1
      = center_y size + (((i % 2 : ℕ) : ℚ) - 0.5) * 0.1 * (size : ℚ) := by
    ring
  have hr : max 2 ((size : ℚ) * 0.02 - (i : ℚ)) = max 2 (0.02 * (size : ℚ) - (i : ℚ)) := by
    rw [show (size : ℚ) * 0.02 - (i : ℚ) = 0.02 * (size : ℚ) - (i : ℚ) by ring]
  rw [hx, hy, hr]
  rcases le_or_lt (body_left size - 0.3 * bird_size size - (i : ℚ) * 0.05 * (size : ℚ)) 0
    with hle | hgt
  · rw [if_neg (not_lt.2 hle), if_pos hle]
  · rw [if_pos hgt, if_neg (not_le.2 hgt)]

set_option maxRecDepth 8192 in
/-- C5: Android generation performs, for each of the five density buckets in
order (mdpi=48, hdpi=72, xhdpi=96, xxhdpi=144, xxxhdpi=192), a recursive
directory creation followed by the writes of `ic_launcher.png`,
`ic_launcher_background.png` and `ic_launcher_foreground.png` at that
density's size — 15 files across 5 directories in total. -/
theorem android_generation_trace :
    generate_android_icons =
      [FsEvent.makedirs "../android/app/src/main/res/mipmap-mdpi",
       FsEvent.save "../android/app/src/main/res/mipmap-mdpi/ic_launcher.png"
         (create_neon_bird_icon 48),
       FsEvent.save "../android/app/src/main/res/mipmap-mdpi/ic_launcher_background.png"
         (PImage.new 48 48 ((11, 11, 31, 255) : RGBA)),
       FsEvent.save "../android/app/src/main/res/mipmap-mdpi/ic_launcher_foreground.png"
         (create_neon_bird_icon 48),
       FsEvent.pr "Generated Android mdpi icons (48x48)",
       FsEvent.makedirs "../android/app/src/main/res/mipmap-hdpi",
       FsEvent.save "../android/app/src/main/res/mipmap-hdpi/ic_launcher.png"
         (create_neon_bird_icon 72),
       FsEvent.save "../android/app/src/main/res/mipmap-hdpi/ic_launcher_background.png"
         (PImage.new 72 72 ((11, 11, 31, 255) : RGBA)),
       FsEvent.save "../android/app/src/main/res/mipmap-hdpi/ic_launcher_foreground.png"
         (create_neon_bird_icon 72),
       FsEvent.pr "Generated Android hdpi icons (72x72)",
       FsEvent.makedirs "../android/app/src/main/res/mipmap-xhdpi",
       FsEvent.save "../android/app/src/main/res/mipmap-xhdpi/ic_launcher.png"
         (create_neon_bird_icon 96),
       FsEvent.save "../android/app/src/main/res/mipmap-xhdpi/ic_launcher_background.png"
         (PImage.new 96 96 ((11, 11, 31, 255) : RGBA)),
       FsEvent.save "../android/app/src/main/res/mipmap-xhdpi/ic_launcher_foreground.png"
         (create_neon_bird_icon 96),
       FsEvent.pr "Generated Android xhdpi icons (96x96)",
       FsEvent.makedirs "../android/app/src/main/res/mipmap-xxhdpi",
       FsEvent.save "../android/app/src/main/res/mipmap-xxhdpi/ic_launcher.png"
         (create_neon_bird_icon 144),
       FsEvent.save "../android/app/src/main/res/mipmap-xxhdpi/ic_launcher_background.png"
         (PImage.new 144 144 ((11, 11, 31, 255) : RGBA)),
       FsEvent.save "../android/app/src/main/res/mipmap-xxhdpi/ic_launcher_foreground.png"
         (create_neon_bird_icon 144),
       FsEvent.pr "Generated Android xxhdpi icons (144x144)",
       FsEvent.makedirs "../android/app/src/main/res/mipmap-xxxhdpi",
       FsEvent.save "../android/app/src/main/res/mipmap-xxxhdpi/ic_launcher.png"
         (create_neon_bird_icon 192),
       FsEvent.save "../android/app/src/main/res/mipmap-xxxhdpi/ic_launcher_background.png"
         (PImage.new 192 192 ((11, 11, 31, 255) : RGBA)),
       FsEvent.save "../android/app/src/main/res/mipmap-xxxhdpi/ic_launcher_foreground.png"
         (create_neon_bird_icon 192),
       FsEvent.pr "Generated Android xxxhdpi icons (192x192)"] ∧
    (savedPaths generate_android_icons).length = 15 ∧
    madeDirs generate_android_icons =
      ["../android/app/src/main/res/mipmap-mdpi",
       "../android/app/src/main/res/mipmap-hdpi",
       "../android/app/src/main/res/mipmap-xhdpi",
       "../android/app/src/main/res/mipmap-xxhdpi",
       "../android/app/src/main/res/mipmap-xxxhdpi"] ∧
    savedDims generate_android_icons =
      [(48, 48), (48, 48), (48, 48),
       (72, 72), (72, 72), (72, 72),
       (96, 96), (96, 96), (96, 96),
       (144, 144), (144, 144), (144, 144),
       (192, 192), (192, 192), (192, 192)] := by
  refine ⟨rfl, rfl, rfl, ?_⟩
  show savedDims generate_android_icons = _
  simp only [generate_android_icons, android_sizes, android_density_events, List.foldl,
    savedDims, List.filterMap]
  simp only [dims_create, dims, dims_particle_trail, dims_background_gradient]

set_option maxRecDepth 32768 in
/-- C6: iOS generation creates no directories and writes exactly the 15
literal filenames of the iOS table into the shared asset directory, each
icon rendered at the pixel size documented for its filename. -/
theorem ios_generation_trace :
    madeDirs generate_ios_icons = [] ∧
    savedPaths generate_ios_icons =
      ["../ios/Runner/Assets.xcassets/AppIcon.appiconset/Icon-App-20x20@1x.png",
       "../ios/Runner/Assets.xcassets/AppIcon.appiconset/Icon-App-20x20@2x.png",
       "../ios/Runner/Assets.xcassets/AppIcon.appiconset/Icon-App-20x20@3x.png",
       "../ios/Runner/Assets.xcassets/AppIcon.appiconset/Icon-App-29x29@1x.png",
       "../ios/Runner/Assets.xcassets/AppIcon.appiconset/Icon-App-29x29@2x.png",
       "../ios/Runner/Assets.xcassets/AppIcon.appiconset/Icon-App-29x29@3x.png",
       "../ios/Runner/Assets.xcassets/AppIcon.appiconset/Icon-App-40x40@1x.png",
       "../ios/Runner/Assets.xcassets/AppIcon.appiconset/Icon-App-40x40@2x.png",
       "../ios/Runner/Assets.xcassets/AppIcon.appiconset/Icon-App-40x40@3x.png",
       "../ios/Runner/Assets.xcassets/AppIcon.appiconset/Icon-App-60x60@2x.png",
       "../ios/Runner/Assets.xcassets/AppIcon.appiconset/Icon-App-60x60@3x.png",
       "../ios/Runner/Assets.xcassets/AppIcon.appiconset/Icon-App-76x76@1x.png",
       "../ios/Runner/Assets.xcassets/AppIcon.appiconset/Icon-App-76x76@2x.png",
       "../ios/Runner/Assets.xcassets/AppIcon.appiconset/Icon-App-83.5x83.5@2x.png",
       "../ios/Runner/Assets.xcassets/AppIcon.appiconset/Icon-App-1024x1024@1x.png"] ∧
    (savedPaths generate_ios_icons).length = 15 ∧
    savedDims generate_ios_icons =
      [(20, 20), (40, 40), (60, 60), (29, 29), (58, 58), (87, 87), (40, 40),
       (80, 80), (120, 120), (120, 120), (180, 180), (76, 76), (152, 152),
       (167, 167), (1024, 1024)] := by
  refine ⟨rfl, rfl, rfl, ?_⟩
  show savedDims generate_ios_icons = _
  simp only [generate_ios_icons, ios_sizes, List.foldl, savedDims, List.filterMap]
  simp only [dims_create, dims, dims_particle_trail, dims_background_gradient]

lemma apply_events_last_save :
    ∀ (t : List FsEvent) (fs : String → Option PImage) (q : String),
      apply_events fs t q =
        match last_save t q with
        | some i => some i
        | none => fs q := by
  intro t
  induction t with
  | nil => intro fs q; rfl
  | cons e rest ih =>
    intro fs q
    show apply_events (apply_event fs e) rest q = _
    rw [ih]
    cases hls : last_save rest q with
    | some i => simp [last_save, hls]
    | none =>
      cases e with
      | save p img =>
        simp only [last_save, hls, apply_event]
        by_cases hq : q = p <;> simp [hq]
      | makedirs p => simp [last_save, hls, apply_event]
      | pr s => simp [last_save, hls, apply_event]

lemma apply_events_idem (t : List FsEvent) (fs : String → Option PImage) :
    apply_events (apply_events fs t) t = apply_events fs t := by
  funext q
  simp only [apply_events_last_save]
  cases last_save t q <;> rfl

/-- C7: the generator is deterministic — a run of `main` performs the same
events whatever the ambient environment — and replaying its trace twice
leaves every file with the same contents as replaying it once, so
re-running is idempotent at the level of file contents. -/
theorem generator_deterministic_idempotent :
    (∀ w₁ w₂ : ℕ, run_main w₁ = run_main w₂) ∧
    (∀ fs : String → Option PImage,
      apply_events (apply_events fs main_events) main_events
        = apply_events fs main_events) :=
  ⟨fun _ _ => rfl, fun fs => apply_events_idem main_events fs⟩

/-- C8: whatever exception either generation phase raises, `main` never
re-raises: it returns normally, appending to the events already performed
exactly the fixed two-line generic failure report (and the phases are run
at most once each, with no success line on the failure paths). -/
theorem main_catches_all (a b : PhaseRun) :
    (mainWith a b).2 = false ∧
    (∀ e, a.exn = some e →
      (mainWith a b).1 = header_events ++ a.events ++ error_events e) ∧
    (∀ e, a.exn = none → b.exn = some e →
      (mainWith a b).1
        = header_events ++ a.events ++ [FsEvent.pr ""] ++ b.events ++ error_events e) ∧
    (a.exn = none → b.exn = none →
      (mainWith a b).1
        = header_events ++ a.events ++ [FsEvent.pr ""] ++ b.events ++ success_events) ∧
    (∀ e, error_events e =
      [FsEvent.pr ("❌ Error generating icons: " ++ e),
       FsEvent.pr "Make sure you have Pillow installed: pip install Pillow"]) := by
  rcases a with ⟨aev, aex⟩
  rcases b with ⟨bev, bex⟩
  cases aex <;> cases bex <;> simp [mainWith, error_events]

/-- Witness for C8: a failing Android phase is caught and reported. -/
theorem main_catches_all_witness :
    (mainWith ⟨[], some "disk full"⟩ ⟨[], none⟩).2 = false ∧
    (mainWith ⟨[], some "disk full"⟩ ⟨[], none⟩).1
      = header_events ++ [] ++ error_events "disk full" :=
  ⟨(main_catches_all ⟨[], some "disk full"⟩ ⟨[], none⟩).1,
   (main_catches_all ⟨[], some "disk full"⟩ ⟨[], none⟩).2.1 "disk full" rfl⟩

/-- C9: for every Android density, the background layer written is a flat
`size×size` fill of the background palette color `#0B0B1F` at full alpha,
with no drawing operations. -/
theorem android_background_flat_fill (density : String) (size : ℕ)
    (h : (density, size) ∈ android_sizes) :
    savedAt generate_android_icons
        (android_base_path ++ "/mipmap-" ++ density ++ "/ic_launcher_background.png")
      = some (PImage.new size size ((11, 11, 31, 255) : RGBA)) ∧
    rgbaOfRgb (hex_to_rgb (COLORS "background")) = ((11, 11, 31, 255) : RGBA) ∧
    dims (PImage.new size size ((11, 11, 31, 255) : RGBA)) = (size, size) ∧
    drawCount (PImage.new size size ((11, 11, 31, 255) : RGBA)) = 0 := by
  fin_cases h <;> exact ⟨by decide, by decide, rfl, rfl⟩

/-- Witness for C9 at the mdpi density. -/
theorem android_background_flat_fill_witness :
    savedAt generate_android_icons
        (android_base_path ++ "/mipmap-" ++ "mdpi" ++ "/ic_launcher_background.png")
      = some (PImage.new 48 48 ((11, 11, 31, 255) : RGBA)) ∧
    rgbaOfRgb (hex_to_rgb (COLORS "background")) = ((11, 11, 31, 255) : RGBA) ∧
    dims (PImage.new 48 48 ((11, 11, 31, 255) : RGBA)) = (48, 48) ∧
    drawCount (PImage.new 48 48 ((11, 11, 31, 255) : RGBA)) = 0 :=
  android_background_flat_fill "mdpi" 48 (by decide)

/-- C10: for every Android density, the foreground file and the launcher
file of the same run hold pixel-identical bitmaps: both are the result of
the same deterministic `create_neon_bird_icon` call at the same size. -/
theorem android_foreground_eq_launcher (density : String) (size : ℕ)
    (h : (density, size) ∈ android_sizes) :
    savedAt generate_android_icons
        (android_base_path ++ "/mipmap-" ++ density ++ "/ic_launcher_foreground.png")
      = savedAt generate_android_icons
          (android_base_path ++ "/mipmap-" ++ density ++ "/ic_launcher.png") ∧
    savedAt generate_android_icons
        (android_base_path ++ "/mipmap-" ++ density ++ "/ic_launcher.png")
      = some (create_neon_bird_icon size) := by
  fin_cases h <;> exact ⟨rfl, rfl⟩

/-- Witness for C10 at the mdpi density. -/
theorem android_foreground_eq_launcher_witness :
    savedAt generate_android_icons
        (android_base_path ++ "/mipmap-" ++ "mdpi" ++ "/ic_launcher_foreground.png")
      = savedAt generate_android_icons
          (android_base_path ++ "/mipmap-" ++ "mdpi" ++ "/ic_launcher.png") ∧
    savedAt generate_android_icons
        (android_base_path ++ "/mipmap-" ++ "mdpi" ++ "/ic_launcher.png")
      = some (create_neon_bird_icon 48) :=
  android_foreground_eq_launcher "mdpi" 48 (by decide)
